import Mathlib

/-!
# Verification of the gnosis-metadata service (src/app.py)

Shallow embedding of the Flask service in `src/app.py`:

* `extract_metadata_from_text` — the extraction engine: builds a prompt,
  calls the chat-completion provider, strips code fences, parses JSON,
  and falls back to the all-"Unknown" record on any exception.
* `MetadataExtractResource.post` — the `POST /api/metadata/extract` handler.
* `ContentMetadataResource.get` — the `GET /api/content/<int:id>/metadata` handler.
* `log_request_info` — the `before_request` API-key gate.
* `appHandle` — the whole app: gate first (Flask skips the view when a
  `before_request` callback returns a response), then routing.

External collaborators (the OpenAI client and `json.loads`) are passed in as
function parameters: the engine is quantified over every possible provider
reply and every possible parse outcome.  Handlers additionally return a trace
of externally visible events (provider calls, database reads) so that
"the engine / the store is never invoked" is expressible as an empty trace.

JSON values are modelled by the inductive `Jn` below (no array constructor:
no payload of this service carries a JSON array, and omitting it keeps the
type non-nested so that structural recursion stays simple).  A JSON `null`
inside a request body is identified with Python `None`, exactly as
`json.loads` produces it.
-/

/-- JSON values as produced by `json.loads` / consumed by `jsonify`
(arrays omitted, see header). `obj` keeps insertion order like a Python dict. -/
inductive Jn where
  | null : Jn
  | bool (b : Bool) : Jn
  | num (n : Int) : Jn
  | str (s : String) : Jn
  | obj (kvs : List (String × Jn)) : Jn

/-- First-occurrence association lookup, the semantics of `d[k]` /
`k in d` on a Python dict with string keys. -/
def jnLookup (kvs : List (String × Jn)) (k : String) : Option Jn :=
  match kvs.find? (fun kv => kv.1 == k) with
  | some kv => some kv.2
  | none => none

/-- Python `d.get(k)`: it collapses a stored JSON `null` and a missing key to
the same `None`. -/
def pyDictGet (kvs : List (String × Jn)) (k : String) : Option Jn :=
  match jnLookup kvs k with
  | some Jn.null => none
  | v => v

/-- Python truthiness of a decoded JSON value (`if additional_info:`). -/
def pyTruthyJn : Jn → Bool
  | Jn.null => false
  | Jn.bool b => b
  | Jn.num n => n != 0
  | Jn.str s => s != ""
  | Jn.obj kvs => !kvs.isEmpty

/-- Python truthiness of an optional value (`None` is falsy). -/
def pyTruthy : Option Jn → Bool
  | none => false
  | some j => pyTruthyJn j

/-- Python `repr()` of a decoded JSON value (string escaping inside `repr`
of a str is not modelled; no claim depends on it). -/
def pyRepr : Jn → String
  | Jn.null => "None"
  | Jn.bool true => "True"
  | Jn.bool false => "False"
  | Jn.num n => toString n
  | Jn.str s => "\x27" ++ s ++ "\x27"
  | Jn.obj kvs => "\x7b" ++ pyReprObj kvs ++ "\x7d"
where
  pyReprObj : List (String × Jn) → String
  | [] => ""
  | [(k, v)] => "\x27" ++ k ++ "\x27: " ++ pyRepr v
  | (k, v) :: rest => "\x27" ++ k ++ "\x27: " ++ pyRepr v ++ ", " ++ pyReprObj rest

/-- Python `str()` of a decoded JSON value, as used by f-string interpolation
(`str` of a str is the string itself, containers fall back to `repr`). -/
def pyStrJn : Jn → String
  | Jn.str s => s
  | j => pyRepr j

/-- f-string interpolation of a possibly-`None` Python value:
`f"... {x} ..."` renders `None` as the literal text `None`. -/
def pyStrOpt : Option Jn → String
  | none => "None"
  | some j => pyStrJn j

/-- Python character slicing `s[:n]` (by code points). -/
def pySlice (s : String) (n : Nat) : String :=
  String.mk (s.data.take n)

/-- Python `s.startswith(p)` (by code points). -/
def strStartsWith (s p : String) : Bool :=
  p.data.isPrefixOf s.data

/-- One step of Python `s.replace(pat, repl)`: scan left to right, replace
each non-overlapping occurrence (for an empty `pat` the scan just copies,
a dead case here — both patterns of the source are non-empty). -/
def replaceChars (l pat repl : List Char) : List Char :=
  if h : pat.isPrefixOf l ∧ pat ≠ [] then
    repl ++ replaceChars (l.drop pat.length) pat repl
  else
    match l with
    | [] => []
    | c :: rest => c :: replaceChars rest pat repl
termination_by l.length
decreasing_by
  · have hpre : pat <+: l := List.isPrefixOf_iff_prefix.mp h.1
    have hle : pat.length ≤ l.length := hpre.length_le
    have hpos : 0 < pat.length := List.length_pos.mpr h.2
    simp only [List.length_drop]
    omega
  · simp only [List.length_cons]
    omega

/-- Python `s.replace(pat, repl)`. -/
def pyReplace (s pat repl : String) : String :=
  String.mk (replaceChars s.data pat.data repl.data)

/-- Helper for `s.split("/")`, on the character list (accumulator holds the current
segment reversed). -/
def splitSlashAux : List Char → List Char → List String
  | [], acc => [String.mk acc.reverse]
  | c :: rest, acc =>
    if c == '/' then String.mk acc.reverse :: splitSlashAux rest []
    else splitSlashAux rest (c :: acc)

/-- Python `s.split("/")`. -/
def pySplitSlash (s : String) : List String :=
  splitSlashAux s.data []

/-- Flask's `int` URL converter: one or more digits, read as a number. -/
def digitsToNat? (s : String) : Option Nat :=
  if s.data ≠ [] ∧ s.data.all Char.isDigit then
    some (s.data.foldl (fun n c => 10 * n + (c.toNat - ('0').toNat)) 0)
  else none

/-! ## Chat-completion provider interface -/

/-- One message of the chat request: `{"role": ..., "content": ...}`. -/
structure ChatMessage where
  role : String
  content : String

/-- The `response.choices[i].message` object. -/
structure ChoiceMessage where
  content : String

/-- The `response.choices[i]` object. -/
structure Choice where
  message : ChoiceMessage

/-- The provider reply `{choices: [{message: {content}}...]}`. -/
structure ChatResponse where
  choices : List Choice

/-- The call `client.chat.completions.create(model=..., messages=...)`: either a reply
or a raised exception (`Except.error` with the exception text). -/
abbrev Provider := String → List ChatMessage → Except String ChatResponse

/-- The call `json.loads`: either a decoded value or a raised `JSONDecodeError`. -/
abbrev ParseFun := String → Except String Jn

/-- Externally visible side effects of a request, for stating
"the engine / the store was never invoked". -/
inductive Event where
  | providerCall (model : String) (messages : List ChatMessage) : Event
  | dbGet (content_id : Int) : Event

/-! ## Extraction engine (`extract_metadata_from_text`, app.py lines 69-119) -/

/-- The assignment `context = f"Additional context: {additional_info}\n\n" if additional_info else ""`. -/
def contextOf (additional_info : Option Jn) : String :=
  if pyTruthy additional_info then
    "Additional context: " ++ pyStrOpt additional_info ++ "\n\n"
  else ""

/-- Everything of the prompt f-string before `{text[:3000]}`. -/
def promptPre (file_name additional_info : Option Jn) : String :=
  "\nBased on the following text"
  ++ (if pyTruthy additional_info then " and additional context" else "")
  ++ " from the file " ++ pyStrOpt file_name
  ++ ", please extract metadata information.\nIf you can\x27t determine a specific piece of information with high confidence, use \"Unknown\".\n\n"
  ++ contextOf additional_info
  ++ "\n\nText to analyze:\n"

/-- Everything of the prompt f-string after `{text[:3000]}` (the stray
`# Using first 3000 characters` is inside the triple-quoted f-string, hence
part of the prompt). -/
def promptPost : String :=
  "  # Using first 3000 characters\n\nPlease respond in JSON format with the following structure:\n\x7b\n    \"title\": \"Document title\",\n    \"author\": \"Author name(s)\",\n    \"publication_date\": \"YYYY-MM-DD or Unknown\",\n    \"publisher\": \"Publisher name\",\n    \"source_language\": \"Primary language of the text\",\n    \"genre\": \"Document genre/category\",\n    \"topic\": \"Briefly describe the main topic of the document\"\n\x7d\n\nBe as specific as possible while maintaining accuracy. For publication_date, \nif only year or year-month is known, use YYYY-01-01 or YYYY-MM-01 format.\n"

/-- The prompt f-string of app.py lines 73-93: the input text enters only as
`text[:3000]`. -/
def buildPrompt (text : String) (file_name additional_info : Option Jn) : String :=
  promptPre file_name additional_info ++ pySlice text 3000 ++ promptPost

/-- The two-message exchange submitted to the provider (app.py lines 98-101). -/
def extractMessages (text : String) (file_name additional_info : Option Jn) : List ChatMessage :=
  [{ role := "system", content := "You are a metadata extraction specialist." },
   { role := "user", content := buildPrompt text file_name additional_info }]

/-- The all-"Unknown" fallback record (app.py lines 111-119). -/
def unknownMetadata : Jn :=
  Jn.obj [("title", Jn.str "Unknown"), ("author", Jn.str "Unknown"),
    ("publication_date", Jn.str "Unknown"), ("publisher", Jn.str "Unknown"),
    ("source_language", Jn.str "Unknown"), ("genre", Jn.str "Unknown"),
    ("topic", Jn.str "Unknown")]

/-- The body of the `try` block (app.py lines 95-107): provider call,
`choices[0]` indexing, code-fence stripping, `json.loads`.  Any raised
exception is an `Except.error`. -/
def extractAttempt (provider : Provider) (parse : ParseFun)
    (text : String) (file_name additional_info : Option Jn) : Except String Jn := do
  let response ← provider "gpt-4o-mini" (extractMessages text file_name additional_info)
  let choice ← match response.choices with
    | c :: _ => Except.ok c
    | [] => Except.error "IndexError: list index out of range"
  let cleaned := pyReplace (pyReplace choice.message.content "```json" "") "```" ""
  parse cleaned

/-- The engine `extract_metadata_from_text` (app.py lines 69-119): returns the parsed
metadata, or the all-"Unknown" record when the `try` block raised; the trace
records the one provider call it always makes. -/
def extract_metadata_from_text (provider : Provider) (parse : ParseFun)
    (text : String) (file_name additional_info : Option Jn) : Jn × List Event :=
  (match extractAttempt provider parse text file_name additional_info with
   | Except.ok metadata => metadata
   | Except.error _ => unknownMetadata,
   [Event.providerCall "gpt-4o-mini" (extractMessages text file_name additional_info)])

/-! ## Persistence layer (`Content` model, app.py lines 49-67) -/

/-- Left-pad a number with zeros, for ISO date rendering. -/
def padNum (w n : Nat) : String :=
  let s := toString n
  String.mk (List.replicate (w - s.length) '0') ++ s

/-- A SQL `Date` value. -/
structure PyDate where
  year : Nat
  month : Nat
  day : Nat

/-- Python `datetime.date.isoformat()`: `YYYY-MM-DD`, zero-padded. -/
def PyDate.isoformat (d : PyDate) : String :=
  padNum 4 d.year ++ "-" ++ padNum 2 d.month ++ "-" ++ padNum 2 d.day

/-- A SQL `DateTime` value. -/
structure PyDateTime where
  date : PyDate
  hour : Nat
  minute : Nat
  second : Nat
  microsecond : Nat

/-- Python `datetime.datetime.isoformat()`: `YYYY-MM-DDTHH:MM:SS[.ffffff]`. -/
def PyDateTime.isoformat (t : PyDateTime) : String :=
  t.date.isoformat ++ "T" ++ padNum 2 t.hour ++ ":" ++ padNum 2 t.minute
    ++ ":" ++ padNum 2 t.second
    ++ (if t.microsecond == 0 then "" else "." ++ padNum 6 t.microsecond)

/-- One row of the `content` table (app.py lines 49-67). -/
structure Content where
  id : Int
  user_id : Int
  file_name : String
  file_type : String
  upload_date : PyDateTime
  file_size : Int
  s3_key : Option String
  chunk_count : Int
  custom_prompt : Option String
  title : Option String
  author : Option String
  publication_date : Option PyDate
  publisher : Option String
  source_language : Option String
  genre : Option String
  topic : Option String

/-- The lookup `Content.query.get(content_id)`: primary-key point lookup. -/
def Content.queryGet (store : List Content) (content_id : Int) : Option Content :=
  store.find? (fun c => c.id == content_id)

/-! ## HTTP layer -/

inductive Method where
  | get : Method
  | post : Method
deriving DecidableEq

/-- An inbound HTTP request.  Header names are taken as already canonicalized
(Werkzeug matches them case-insensitively); `jsonBody` is the decoded JSON
object of the body, or `none` when there is no JSON body (the request bodies
this API declares are JSON objects). -/
structure HttpRequest where
  method : Method
  path : String
  headers : List (String × String)
  jsonBody : Option (List (String × Jn))

/-- Header lookup `request.headers.get(name)` (first occurrence). -/
def headersGet (headers : List (String × String)) (name : String) : Option String :=
  match headers.find? (fun kv => kv.1 == name) with
  | some kv => some kv.2
  | none => none

structure HttpResponse where
  status : Nat
  body : Jn

/-- The body flask-restx gives an `api.abort(code, message)` response. -/
def abortBody (message : String) : Jn :=
  Jn.obj [("message", Jn.str message)]

/-- Handler of `POST /api/metadata/extract` (app.py lines 143-162).
`if not request.json or 'text' not in request.json: api.abort(400, ...)` is
raised before the `try` block, so the 400 stands.  `text = request.json['text']`
can be a stored JSON `null` (Python `None`) or a non-string: slicing such a
value in `extract_metadata_from_text`'s prompt f-string (outside the engine's
own `try`) raises `TypeError`, which the handler's `except Exception` turns
into a 500 — no provider call happens.  In the embedding the engine takes a
Lean `String`, so that type error is discharged at the call site. -/
def MetadataExtractResource.post (provider : Provider) (parse : ParseFun)
    (req : HttpRequest) : HttpResponse × List Event :=
  match req.jsonBody with
  | none => ({ status := 400, body := abortBody "No text provided" }, [])
  | some d =>
    if d.isEmpty then
      -- `not request.json`: an empty dict is falsy
      ({ status := 400, body := abortBody "No text provided" }, [])
    else
      match jnLookup d "text" with
      | none => ({ status := 400, body := abortBody "No text provided" }, [])
      | some (Jn.str text) =>
        let result := extract_metadata_from_text provider parse text
          (pyDictGet d "file_name") (pyDictGet d "additional_info")
        ({ status := 200,
           body := Jn.obj [("message", Jn.str "Metadata extracted successfully"),
             ("metadata", result.1)] },
         result.2)
      | some _ =>
        -- non-string `text`: TypeError while slicing, caught by the handler
        ({ status := 500, body := abortBody "Internal server error" }, [])

/-- The `metadata` dict of app.py lines 176-192. -/
def contentMetadataDict (content : Content) : List (String × Jn) :=
    [("id", Jn.num content.id),
     ("user_id", Jn.num content.user_id),
     ("file_name", Jn.str content.file_name),
     ("file_type", Jn.str content.file_type),
     ("upload_date", Jn.str content.upload_date.isoformat),
     ("file_size", Jn.num content.file_size),
     ("s3_key", match content.s3_key with | some s => Jn.str s | none => Jn.null),
     ("chunk_count", Jn.num content.chunk_count),
     ("title", match content.title with | some s => Jn.str s | none => Jn.null),
     ("author", match content.author with | some s => Jn.str s | none => Jn.null),
     ("publication_date",
       match content.publication_date with
       | some d => Jn.str d.isoformat
       | none => Jn.null),
     ("publisher", match content.publisher with | some s => Jn.str s | none => Jn.null),
     ("source_language",
       match content.source_language with | some s => Jn.str s | none => Jn.null),
     ("genre", match content.genre with | some s => Jn.str s | none => Jn.null),
     ("topic", match content.topic with | some s => Jn.str s | none => Jn.null)]

/-- Handler of `GET /api/content/<int:content_id>/metadata` (app.py lines 168-201).
When the id is absent, `api.abort(404, 'Content not found')` raises a
`NotFound` HTTPException *inside* the `try`; the blanket `except Exception`
catches it and calls `api.abort(500, 'Internal server error')`, so the client
receives 500, not 404. -/
def ContentMetadataResource.get (store : List Content) (content_id : Int) :
    HttpResponse × List Event :=
  match Content.queryGet store content_id with
  | none => ({ status := 500, body := abortBody "Internal server error" },
      [Event.dbGet content_id])
  | some content =>
    ({ status := 200,
       body := Jn.obj [("message", Jn.str "Metadata retrieved successfully"),
         ("metadata", Jn.obj (contentMetadataDict content))] },
     [Event.dbGet content_id])

/-- The documentation/introspection exemption of the gate:
`request.path.startswith('/docs') or request.path.startswith('/swagger')`. -/
def docsExempt (path : String) : Bool :=
  strStartsWith path "/docs" || strStartsWith path "/swagger"

/-- The `before_request` API-key gate (app.py lines 203-221): `some response`
means the gate short-circuits with that response, `none` means the request
proceeds to the routed handler. -/
def log_request_info (api_key : String) (req : HttpRequest) : Option HttpResponse :=
  if docsExempt req.path then
    none
  else
    match headersGet req.headers "X-API-KEY" with
    | none => some { status := 401, body := Jn.obj [("error", Jn.str "No X-API-KEY")] }
    | some x_api_key =>
      if x_api_key != api_key then
        some { status := 401, body := Jn.obj [("error", Jn.str "Invalid X-API-KEY")] }
      else
        none

/-- Flask's `/api/content/<int:content_id>/metadata` route match: the int
converter accepts one or more digits. -/
def contentPathId (path : String) : Option Nat :=
  match pySplitSlash path with
  | ["", "api", "content", s, "metadata"] => digitsToNat? s
  | _ => none

/-- Routing of the two registered resources; anything else is Flask's 404. -/
def dispatchRequest (provider : Provider) (parse : ParseFun) (store : List Content)
    (req : HttpRequest) : HttpResponse × List Event :=
  if req.path == "/api/metadata/extract" && req.method == Method.post then
    MetadataExtractResource.post provider parse req
  else
    match contentPathId req.path, req.method with
    | some content_id, Method.get => ContentMetadataResource.get store (content_id : Int)
    | _, _ => ({ status := 404, body := abortBody "Not Found" }, [])

/-- The whole app on one request: if the `before_request` callback returns a
response, Flask skips the view function entirely. -/
def appHandle (api_key : String) (provider : Provider) (parse : ParseFun)
    (store : List Content) (req : HttpRequest) : HttpResponse × List Event :=
  match log_request_info api_key req with
  | some resp => (resp, [])
  | none => dispatchRequest provider parse store req

/-! ## Concrete fixtures used by witnesses -/

/-- A provider whose call raises (e.g. a network failure). -/
def provFail : Provider := fun _ _ => Except.error "connection error"

/-- A provider replying with a single choice carrying the given content. -/
def provReply (content : String) : Provider :=
  fun _ _ => Except.ok { choices := [{ message := { content := content } }] }

/-- A `json.loads` oracle raising a `JSONDecodeError` on every input. -/
def parseFail : ParseFun := fun _ => Except.error "Expecting value: line 1 column 1 (char 0)"

/-- A parse oracle succeeding on every input with a string value. -/
def parseEcho : ParseFun := fun s => Except.ok (Jn.str s)

/-! ## Claims -/

/-- C1: the extraction engine never fails outward: whenever the `try`
block raises (provider failure, empty `choices`, or a JSON parse error),
`extract_metadata_from_text` returns the fixed all-"Unknown" record, and the
HTTP extract endpoint still responds 200 with that record as its metadata. -/
theorem extract_error_yields_unknown_and_200
    (api_key : String) (provider : Provider) (parse : ParseFun) (store : List Content)
    (req : HttpRequest) (d : List (String × Jn)) (text e : String)
    (hpath : req.path = "/api/metadata/extract") (hmethod : req.method = Method.post)
    (hkey : headersGet req.headers "X-API-KEY" = some api_key)
    (hbody : req.jsonBody = some d)
    (htext : jnLookup d "text" = some (Jn.str text))
    (herr : extractAttempt provider parse text (pyDictGet d "file_name")
      (pyDictGet d "additional_info") = Except.error e) :
    (∀ (t : String) (fn ai : Option Jn) (err : String),
      extractAttempt provider parse t fn ai = Except.error err →
      (extract_metadata_from_text provider parse t fn ai).1 = unknownMetadata)
    ∧ appHandle api_key provider parse store req =
      ({ status := 200,
         body := Jn.obj [("message", Jn.str "Metadata extracted successfully"),
           ("metadata", unknownMetadata)] },
       [Event.providerCall "gpt-4o-mini"
         (extractMessages text (pyDictGet d "file_name") (pyDictGet d "additional_info"))]) := by
  have hne : d.isEmpty = false := by
    cases d with
    | nil => simp [jnLookup] at htext
    | cons kv rest => rfl
  constructor
  · intro t fn ai err h
    simp [extract_metadata_from_text, h]
  · simp [appHandle, log_request_info, hpath, hkey, dispatchRequest, hmethod,
      MetadataExtractResource.post, hbody, hne, htext,
      extract_metadata_from_text, herr]

/-- Witness for C1 at a concrete failing provider and request. -/
theorem extract_error_yields_unknown_and_200_w :
    (extract_metadata_from_text provFail parseFail "hello" none none).1 = unknownMetadata
    ∧ appHandle "k" provFail parseFail []
        { method := Method.post, path := "/api/metadata/extract",
          headers := [("X-API-KEY", "k")], jsonBody := some [("text", Jn.str "hello")] } =
      ({ status := 200,
         body := Jn.obj [("message", Jn.str "Metadata extracted successfully"),
           ("metadata", unknownMetadata)] },
       [Event.providerCall "gpt-4o-mini"
         (extractMessages "hello" (pyDictGet [("text", Jn.str "hello")] "file_name")
           (pyDictGet [("text", Jn.str "hello")] "additional_info"))]) :=
  have h := extract_error_yields_unknown_and_200 "k" provFail parseFail []
    { method := Method.post, path := "/api/metadata/extract",
      headers := [("X-API-KEY", "k")], jsonBody := some [("text", Jn.str "hello")] }
    [("text", Jn.str "hello")] "hello" "connection error" rfl rfl rfl rfl rfl rfl
  ⟨h.1 "hello" none none "connection error" rfl, h.2⟩

/-- C2, code-bug evidence: a get-by-id request for an id absent from the
store is answered with 500, not 404: `api.abort(404, 'Content not found')`
raises an `HTTPException` inside the handler's `try`, the blanket
`except Exception` catches it and re-aborts with 500. -/
theorem content_get_missing_id_gives_500 :
    appHandle "k" provFail parseFail []
      { method := Method.get, path := "/api/content/1/metadata",
        headers := [("X-API-KEY", "k")], jsonBody := none } =
    ({ status := 500, body := abortBody "Internal server error" },
     [Event.dbGet 1]) := rfl

/-- C3: an authenticated extract request whose JSON body is absent or
lacks the key `text` is answered 400 before any engine or provider work
(empty event trace). -/
theorem extract_missing_text_gives_400
    (api_key : String) (provider : Provider) (parse : ParseFun) (store : List Content)
    (req : HttpRequest)
    (hpath : req.path = "/api/metadata/extract") (hmethod : req.method = Method.post)
    (hkey : headersGet req.headers "X-API-KEY" = some api_key)
    (hbody : req.jsonBody = none ∨ ∃ d, req.jsonBody = some d ∧ jnLookup d "text" = none) :
    appHandle api_key provider parse store req =
      ({ status := 400, body := abortBody "No text provided" }, []) := by
  rcases hbody with hnone | ⟨d, hd, htext⟩
  · simp [appHandle, log_request_info, hpath, hkey, dispatchRequest, hmethod,
      MetadataExtractResource.post, hnone]
  · cases he : d.isEmpty with
    | true => simp [appHandle, log_request_info, hpath, hkey, dispatchRequest, hmethod,
        MetadataExtractResource.post, hd, he]
    | false => simp [appHandle, log_request_info, hpath, hkey, dispatchRequest, hmethod,
        MetadataExtractResource.post, hd, he, htext]

/-- Witness for C3: a body with no `text` key. -/
theorem extract_missing_text_gives_400_w :
    appHandle "k" provFail parseFail []
      { method := Method.post, path := "/api/metadata/extract",
        headers := [("X-API-KEY", "k")], jsonBody := some [("file_name", Jn.str "f")] } =
      ({ status := 400, body := abortBody "No text provided" }, []) :=
  extract_missing_text_gives_400 "k" provFail parseFail []
    { method := Method.post, path := "/api/metadata/extract",
      headers := [("X-API-KEY", "k")], jsonBody := some [("file_name", Jn.str "f")] }
    rfl rfl rfl (Or.inr ⟨[("file_name", Jn.str "f")], rfl, rfl⟩)

/-- C4: the prompt sent to the provider contains exactly the first 3000
characters of `text` and none beyond: the outbound message decomposes as a
text-independent prefix, then `text[:3000]`, then a fixed suffix; that slice
has length 3000 when `text` is longer; and the prompt is unchanged if `text`
is replaced by its first 3000 characters. -/
theorem prompt_contains_first_3000_chars_only
    (provider : Provider) (parse : ParseFun) (text : String)
    (file_name additional_info : Option Jn)
    (hlen : 3000 < text.length) :
    (extract_metadata_from_text provider parse text file_name additional_info).2 =
      [Event.providerCall "gpt-4o-mini"
        [{ role := "system", content := "You are a metadata extraction specialist." },
         { role := "user",
           content := promptPre file_name additional_info
             ++ pySlice text 3000 ++ promptPost }]]
    ∧ (pySlice text 3000).length = 3000
    ∧ buildPrompt text file_name additional_info =
        buildPrompt (pySlice text 3000) file_name additional_info := by
  refine ⟨rfl, ?_, ?_⟩
  · have hdl : text.length = text.data.length := rfl
    rw [hdl] at hlen
    rw [pySlice, String.length, List.length_take]
    omega
  · simp [buildPrompt, pySlice, List.take_take]

/-- A text of 3001 identical characters, for the C4 witness. -/
def longText : String := String.mk (List.replicate 3001 'a')

/-- Witness for C4 at a 3001-character text. -/
theorem prompt_contains_first_3000_chars_only_w :
    (extract_metadata_from_text provFail parseFail longText none none).2 =
      [Event.providerCall "gpt-4o-mini"
        [{ role := "system", content := "You are a metadata extraction specialist." },
         { role := "user", content := promptPre none none ++ pySlice longText 3000 ++ promptPost }]]
    ∧ (pySlice longText 3000).length = 3000
    ∧ buildPrompt longText none none = buildPrompt (pySlice longText 3000) none none :=
  prompt_contains_first_3000_chars_only provFail parseFail longText none none
    (by rw [longText, String.length, List.length_replicate]; omega)

/-- C5: the authentication gate: on a non-documentation path, a missing
`X-API-KEY` header yields 401, a header different from the configured secret
yields 401, and the exact secret lets the request proceed to the routed
handler; documentation/introspection paths bypass the gate entirely. -/
theorem api_key_gate_behavior
    (api_key k : String) (provider : Provider) (parse : ParseFun) (store : List Content)
    (req : HttpRequest) :
    (docsExempt req.path = false → headersGet req.headers "X-API-KEY" = none →
      appHandle api_key provider parse store req =
        ({ status := 401, body := Jn.obj [("error", Jn.str "No X-API-KEY")] }, []))
    ∧ (docsExempt req.path = false → headersGet req.headers "X-API-KEY" = some k →
        k ≠ api_key →
      appHandle api_key provider parse store req =
        ({ status := 401, body := Jn.obj [("error", Jn.str "Invalid X-API-KEY")] }, []))
    ∧ (docsExempt req.path = false → headersGet req.headers "X-API-KEY" = some api_key →
      appHandle api_key provider parse store req = dispatchRequest provider parse store req)
    ∧ (docsExempt req.path = true →
      appHandle api_key provider parse store req = dispatchRequest provider parse store req) := by
  refine ⟨?_, ?_, ?_, ?_⟩
  · intro hd hh
    simp [appHandle, log_request_info, hd, hh]
  · intro hd hh hne
    have hb : (k != api_key) = true := bne_iff_ne.mpr hne
    simp [appHandle, log_request_info, hd, hh, hb]
  · intro hd hh
    simp [appHandle, log_request_info, hd, hh]
  · intro hd
    simp [appHandle, log_request_info, hd]

/-- Witness for C5: a request without the header on a non-docs path is 401. -/
theorem api_key_gate_behavior_w :
    appHandle "k" provFail parseFail []
      { method := Method.get, path := "/api/ping", headers := [], jsonBody := none } =
      ({ status := 401, body := Jn.obj [("error", Jn.str "No X-API-KEY")] }, []) :=
  (api_key_gate_behavior "k" "x" provFail parseFail []
    { method := Method.get, path := "/api/ping", headers := [], jsonBody := none }).1
    rfl rfl

/-- C6: an extract request without a valid `X-API-KEY` header is answered
401 with an empty event trace — no provider call and no database read — for
every body (the gate runs before body validation) and every store. -/
theorem extract_unauthorized_no_work
    (api_key : String) (provider : Provider) (parse : ParseFun) (store : List Content)
    (req : HttpRequest)
    (hpath : req.path = "/api/metadata/extract")
    (hkey : headersGet req.headers "X-API-KEY" ≠ some api_key) :
    (appHandle api_key provider parse store req).1.status = 401
    ∧ (appHandle api_key provider parse store req).2 = [] := by
  have hd : docsExempt "/api/metadata/extract" = false := rfl
  cases hh : headersGet req.headers "X-API-KEY" with
  | none =>
    constructor <;> simp [appHandle, log_request_info, hpath, hh, hd]
  | some k =>
    have hk : k ≠ api_key := fun e => hkey (by rw [hh, e])
    have hb : (k != api_key) = true := bne_iff_ne.mpr hk
    constructor <;> simp [appHandle, log_request_info, hpath, hh, hb, hd]

/-- Witness for C6: wrong key, body even lacking `text`. -/
theorem extract_unauthorized_no_work_w :
    (appHandle "k" provFail parseFail []
      { method := Method.post, path := "/api/metadata/extract",
        headers := [("X-API-KEY", "wrong")], jsonBody := none }).1.status = 401
    ∧ (appHandle "k" provFail parseFail []
      { method := Method.post, path := "/api/metadata/extract",
        headers := [("X-API-KEY", "wrong")], jsonBody := none }).2 = [] :=
  extract_unauthorized_no_work "k" provFail parseFail []
    { method := Method.post, path := "/api/metadata/extract",
      headers := [("X-API-KEY", "wrong")], jsonBody := none }
    rfl (by decide)

/-- C7: a get-by-id on an id present in the store answers 200 with the
projected record; the projection's `id` equals the requested id,
`upload_date` is the ISO text of the stored timestamp, and
`publication_date` is the ISO date text, or JSON null when absent. -/
theorem content_get_found_projection
    (store : List Content) (content_id : Int) (c : Content)
    (hfound : Content.queryGet store content_id = some c) :
    ContentMetadataResource.get store content_id =
      ({ status := 200,
         body := Jn.obj [("message", Jn.str "Metadata retrieved successfully"),
           ("metadata", Jn.obj (contentMetadataDict c))] },
       [Event.dbGet content_id])
    ∧ jnLookup (contentMetadataDict c) "id" = some (Jn.num content_id)
    ∧ jnLookup (contentMetadataDict c) "upload_date" =
        some (Jn.str c.upload_date.isoformat)
    ∧ jnLookup (contentMetadataDict c) "publication_date" =
        some (match c.publication_date with
          | some d => Jn.str d.isoformat
          | none => Jn.null)
    ∧ (c.publication_date = none →
        jnLookup (contentMetadataDict c) "publication_date" = some Jn.null) := by
  have hid : c.id = content_id := by
    have hf := hfound
    rw [Content.queryGet] at hf
    have hp := List.find?_some hf
    simpa using hp
  refine ⟨?_, ?_, rfl, rfl, ?_⟩
  · simp [ContentMetadataResource.get, hfound]
  · rw [← hid]
    rfl
  · intro hnone
    have h4 : jnLookup (contentMetadataDict c) "publication_date" =
        some (match c.publication_date with
          | some d => Jn.str d.isoformat
          | none => Jn.null) := rfl
    rw [h4, hnone]

/-- A concrete stored record for the C7 witness. -/
def sampleContent : Content :=
  { id := 7, user_id := 1, file_name := "mises.txt", file_type := "text/plain",
    upload_date := ⟨⟨2024, 11, 30⟩, 12, 5, 9, 0⟩,
    file_size := 123, s3_key := none, chunk_count := 0, custom_prompt := none,
    title := some "The Theory of Money and Credit", author := some "Ludwig von Mises",
    publication_date := none, publisher := none,
    source_language := none, genre := none, topic := none }

/-- Witness for C7 on a one-row store. -/
theorem content_get_found_projection_w :
    ContentMetadataResource.get [sampleContent] 7 =
      ({ status := 200,
         body := Jn.obj [("message", Jn.str "Metadata retrieved successfully"),
           ("metadata", Jn.obj (contentMetadataDict sampleContent))] },
       [Event.dbGet 7])
    ∧ jnLookup (contentMetadataDict sampleContent) "id" = some (Jn.num 7)
    ∧ jnLookup (contentMetadataDict sampleContent) "upload_date" =
        some (Jn.str sampleContent.upload_date.isoformat)
    ∧ jnLookup (contentMetadataDict sampleContent) "publication_date" =
        some (match sampleContent.publication_date with
          | some d => Jn.str d.isoformat
          | none => Jn.null)
    ∧ (sampleContent.publication_date = none →
        jnLookup (contentMetadataDict sampleContent) "publication_date" = some Jn.null) :=
  content_get_found_projection [sampleContent] 7 sampleContent rfl

/-- C8: provider-response parsing: when the provider call succeeds, the
engine takes the top choice's message content, removes every occurrence of
the literal substrings ` ```json ` and ` ``` `, parses the remainder, and
returns the parsed value on success. -/
theorem extract_returns_parsed_top_choice
    (provider : Provider) (parse : ParseFun) (text : String)
    (file_name additional_info : Option Jn)
    (resp : ChatResponse) (c : Choice) (rest : List Choice) (m : Jn)
    (hprov : provider "gpt-4o-mini" (extractMessages text file_name additional_info) =
      Except.ok resp)
    (hchoices : resp.choices = c :: rest)
    (hparse : parse (pyReplace (pyReplace c.message.content "```json" "") "```" "") =
      Except.ok m) :
    (extract_metadata_from_text provider parse text file_name additional_info).1 = m := by
  obtain ⟨choices⟩ := resp
  simp only at hchoices
  subst hchoices
  have hattempt : extractAttempt provider parse text file_name additional_info =
      Except.ok m := by
    unfold extractAttempt
    rw [hprov]
    exact hparse
  simp [extract_metadata_from_text, hattempt]

/-- Witness for C8: a fenced reply and an echoing parse oracle. -/
theorem extract_returns_parsed_top_choice_w :
    (extract_metadata_from_text (provReply "```json\x7b\"a\": 1\x7d```") parseEcho
      "t" none none).1 =
      Jn.str (pyReplace (pyReplace "```json\x7b\"a\": 1\x7d```" "```json" "") "```" "") :=
  extract_returns_parsed_top_choice (provReply "```json\x7b\"a\": 1\x7d```") parseEcho
    "t" none none
    { choices := [{ message := { content := "```json\x7b\"a\": 1\x7d```" } }] }
    { message := { content := "```json\x7b\"a\": 1\x7d```" } } []
    (Jn.str (pyReplace (pyReplace "```json\x7b\"a\": 1\x7d```" "```json" "") "```" ""))
    rfl rfl rfl

/-- The middle part of a three-part concatenation occurs inside it (for C9). -/
theorem middle_of_append_data (a b c : String) : b.data <:+: (a ++ b ++ c).data :=
  ⟨a.data, c.data, by simp [String.data_append]⟩

/-- C9: an extract request omitting `file_name` makes the handler pass
`None` to the engine, and the outbound user prompt literally contains the
text `from the file None`. -/
theorem absent_file_name_renders_none
    (api_key : String) (provider : Provider) (parse : ParseFun) (store : List Content)
    (req : HttpRequest) (d : List (String × Jn)) (text : String)
    (hpath : req.path = "/api/metadata/extract") (hmethod : req.method = Method.post)
    (hkey : headersGet req.headers "X-API-KEY" = some api_key)
    (hbody : req.jsonBody = some d)
    (htext : jnLookup d "text" = some (Jn.str text))
    (hnofn : jnLookup d "file_name" = none) :
    (appHandle api_key provider parse store req).2 =
      [Event.providerCall "gpt-4o-mini"
        (extractMessages text none (pyDictGet d "additional_info"))]
    ∧ ("from the file None").data <:+:
        (buildPrompt text none (pyDictGet d "additional_info")).data := by
  have hfn : pyDictGet d "file_name" = none := by
    rw [pyDictGet, hnofn]
  have hne : d.isEmpty = false := by
    cases d with
    | nil => simp [jnLookup] at htext
    | cons kv rest => rfl
  constructor
  · simp [appHandle, log_request_info, hpath, hkey, dispatchRequest, hmethod,
      MetadataExtractResource.post, hbody, hne, htext, hfn,
      extract_metadata_from_text]
  · have hsplit : buildPrompt text none (pyDictGet d "additional_info") =
        ("\nBased on the following text"
          ++ (if pyTruthy (pyDictGet d "additional_info")
              then " and additional context" else "")
          ++ " ")
        ++ "from the file None"
        ++ (", please extract metadata information.\nIf you can\x27t determine a specific piece of information with high confidence, use \"Unknown\".\n\n"
          ++ contextOf (pyDictGet d "additional_info")
          ++ "\n\nText to analyze:\n" ++ pySlice text 3000 ++ promptPost) := by
      simp only [buildPrompt, promptPre, pyStrOpt, String.append_assoc]
      rfl
    rw [hsplit]
    exact middle_of_append_data _ _ _

/-- Witness for C9: a body with `text` only. -/
theorem absent_file_name_renders_none_w :
    (appHandle "k" provFail parseFail []
      { method := Method.post, path := "/api/metadata/extract",
        headers := [("X-API-KEY", "k")], jsonBody := some [("text", Jn.str "t")] }).2 =
      [Event.providerCall "gpt-4o-mini"
        (extractMessages "t" none (pyDictGet [("text", Jn.str "t")] "additional_info"))]
    ∧ ("from the file None").data <:+:
        (buildPrompt "t" none (pyDictGet [("text", Jn.str "t")] "additional_info")).data :=
  absent_file_name_renders_none "k" provFail parseFail []
    { method := Method.post, path := "/api/metadata/extract",
      headers := [("X-API-KEY", "k")], jsonBody := some [("text", Jn.str "t")] }
    [("text", Jn.str "t")] "t" rfl rfl rfl rfl rfl rfl

/-- C10: the projected metadata object of a found record carries exactly
the fifteen listed keys, in this order; in particular `custom_prompt` is
never part of the response. -/
theorem content_metadata_keys_exact (c : Content) :
    (contentMetadataDict c).map Prod.fst =
      ["id", "user_id", "file_name", "file_type", "upload_date", "file_size",
       "s3_key", "chunk_count", "title", "author", "publication_date",
       "publisher", "source_language", "genre", "topic"]
    ∧ "custom_prompt" ∉ (contentMetadataDict c).map Prod.fst := by
  refine ⟨rfl, ?_⟩
  rw [show (contentMetadataDict c).map Prod.fst =
      ["id", "user_id", "file_name", "file_type", "upload_date", "file_size",
       "s3_key", "chunk_count", "title", "author", "publication_date",
       "publisher", "source_language", "genre", "topic"] from rfl]
  decide
